import Mathlib

/-!
Shallow embedding of the SpotifyAPI client (src/services/SpotifyAPI.ts) and
proofs about its authentication / request lifecycle.

The network is modelled as a scripted list of HTTP responses: each fetch
consumes the head of the list and appends the issued request to a log.
The client state is the pair of tokens plus the cached user profile.
Secure-store writes are logged; secure-store reads (loadTokens) are passed
in explicitly as read results.
-/

namespace Musana

/-! Data model: raw service objects and the normalized app entities,
    mirroring spotify.types.ts and the interfaces in SpotifyAPI.ts. -/

structure Image where
  url : String
  height : Nat
  width : Nat
deriving Repr, DecidableEq

structure Artist where
  id : String
  name : String
deriving Repr, DecidableEq

structure Album where
  id : String
  name : String
  images : List Image
  release_date : String
deriving Repr, DecidableEq

/-- Raw Spotify track object as parsed from a JSON response body. -/
structure TrackObj where
  id : String
  name : String
  artists : List Artist
  album : Album
  duration_ms : Nat
  preview_url : Option String
deriving Repr, DecidableEq

/-- The normalized app Track entity (spotify.types.ts). -/
structure Track where
  id : String
  name : String
  artists : List Artist
  album : Album
  duration_ms : Nat
  preview_url : Option String
deriving Repr, DecidableEq

structure TracksInfo where
  total : Nat
  href : String
deriving Repr, DecidableEq

structure Owner where
  id : String
  display_name : String
deriving Repr, DecidableEq

/-- Raw playlist item as parsed from the playlists endpoint. -/
structure RawPlaylist where
  id : String
  name : String
  description : Option String
  images : List Image
  tracks : TracksInfo
  owner : Owner
deriving Repr, DecidableEq

/-- The normalized app Playlist entity (spotify.types.ts). -/
structure Playlist where
  id : String
  name : String
  description : Option String
  images : List Image
  tracks : TracksInfo
  owner : Owner
deriving Repr, DecidableEq

/-- Spotify device object; the source field named type is rendered
    deviceType because type is a Lean keyword. -/
structure Device where
  id : String
  is_active : Bool
  name : String
  deviceType : String
deriving Repr, DecidableEq

/-- Parsed JSON response body, restricted to exactly the fields the client
    reads.  Absent fields are none / empty, matching undefined in JS. -/
structure Body where
  access_token : Option String := none
  refresh_token : Option String := none
  error_description : Option String := none
  /-- errorData.error?.message as read by the error paths. -/
  error_message : Option String := none
  /-- data.item of the currently-playing endpoint. -/
  item : Option TrackObj := none
  /-- data.items of the playlists endpoint. -/
  items : List RawPlaylist := []
  /-- data.next pagination link of the playlists endpoint. -/
  next : Option String := none
  /-- response.devices of the devices endpoint. -/
  devices : List Device := []
  /-- data.tracks.items of the search endpoint. -/
  tracks_items : List TrackObj := []
  /-- data.tracks of the recommendations endpoint. -/
  rec_tracks : List TrackObj := []
  /-- is_playing of the playback-state body (none models an absent flag). -/
  is_playing : Option Bool := none
deriving Repr, DecidableEq

/-- A scripted HTTP response: status, parsed JSON body, and whether the
    content-type header declares JSON. -/
structure HttpResponse where
  status : Nat
  body : Body := {}
  contentTypeJson : Bool := true
deriving Repr, DecidableEq

/-- fetch Response.ok: status in the 200-299 range. -/
def HttpResponse.isOk (r : HttpResponse) : Bool :=
  decide (200 ≤ r.status) && decide (r.status < 300)

inductive HttpMethod where
  | get
  | post
  | put
deriving Repr, DecidableEq

/-- An HTTP request issued by the client; auth is the bearer access token
    attached (none when the in-memory token is null). -/
structure Request where
  url : String
  method : HttpMethod
  auth : Option String
  reqBody : Option String := none
deriving Repr, DecidableEq

/-- The error taxonomy, one constructor per throw site in SpotifyAPI.ts,
    carrying the dynamic data the thrown message is built from.
    noResponse is a model artifact: the scripted response list ran out. -/
inductive ApiError where
  | notAuthenticated
  | missingRefreshToken
  | refreshFailed (desc : Option String) (status : Nat)
  | apiRequest (msg : Option String) (status : Nat)
  | currentlyPlayingFailed (msg : Option String)
  | playlistsFailed (msg : Option String)
  | emptyQuery
  | invalidSeedCount
  | trackIdRequired
  | noActiveDevice
  | noActivePlayback
  | negativePosition
  | tokenLoadFailed
  | noResponse
deriving Repr, DecidableEq

/-- The mutable instance fields of the SpotifyAPI class.  The cached user
    is the raw parsed profile body. -/
structure Client where
  accessToken : Option String := none
  refreshToken : Option String := none
  user : Option Body := none
deriving Repr, DecidableEq

/-- Result of running one client operation against a scripted trace:
    outcome, final state, unconsumed responses, requests issued in order,
    and secure-store writes in order. -/
structure Eff (α : Type) where
  result : Except ApiError α
  client : Client
  trace : List HttpResponse
  reqs : List Request
  writes : List (String × String) := []
deriving Repr

/-- JS truthiness of a string | null value: null and the empty string are
    falsy. -/
def truthy : Option String → Bool
  | none => false
  | some s => s != ""

/-- The JS coercion x || null applied to a string | null value. -/
def orNull : Option String → Option String
  | none => none
  | some s => if s = "" then none else some s

def tokenUrl : String := "https://accounts.spotify.com/api/token"

def baseUrl : String := "https://api.spotify.com/v1"

/-- The token-refresh POST issued by refreshAccessToken (form body carries
    the refresh token; client credentials go in the Basic header and are
    config, not state). -/
def refreshReq (st : Client) : Request :=
  { url := tokenUrl, method := .post, auth := none, reqBody := st.refreshToken }

/-- Result of a secure-store read: a value (possibly absent) or a
    storage-layer failure. -/
inductive StoreRead where
  | ok (v : Option String)
  | err
deriving Repr, DecidableEq

/-- loadTokens: reads both keys from secure storage; either read throwing
    yields the token-load failure; otherwise each field is set to the read
    value coerced by x || null (lines 259-269). -/
def loadTokens (ra rr : StoreRead) (st : Client) : Except ApiError Client :=
  match ra with
  | .err => .error .tokenLoadFailed
  | .ok a =>
    match rr with
    | .err => .error .tokenLoadFailed
    | .ok r => .ok { st with accessToken := orNull a, refreshToken := orNull r }

/-- Processing of one token-endpoint response inside refreshAccessToken
    (lines 356-371): non-ok fails with the service error_description;
    otherwise accessToken is overwritten by the access_token field of the body,
    refreshToken only when the body carries a truthy one, and each truthy
    resulting token is written to secure storage. -/
def refreshStep (st : Client) (resp : HttpResponse) :
    Except ApiError Client × List (String × String) :=
  if !resp.isOk then
    (.error (.refreshFailed resp.body.error_description resp.status), [])
  else
    let st1 : Client := { st with accessToken := resp.body.access_token }
    let st2 : Client :=
      if truthy resp.body.refresh_token then
        { st1 with refreshToken := resp.body.refresh_token }
      else st1
    let w1 := if truthy st2.accessToken then
        [("spotify_access_token", st2.accessToken.getD "")] else []
    let w2 := if truthy st2.refreshToken then
        [("spotify_refresh_token", st2.refreshToken.getD "")] else []
    (.ok st2, w1 ++ w2)

/-- refreshAccessToken (lines 337-379): fails with the missing-token error
    before any network call when the held refresh token is falsy; otherwise
    issues one POST to the token endpoint and applies refreshStep. -/
def refreshAccessToken (st : Client) (trace : List HttpResponse) : Eff Unit :=
  if !truthy st.refreshToken then
    { result := .error .missingRefreshToken, client := st, trace := trace, reqs := [] }
  else
    match trace with
    | [] =>
      { result := .error .noResponse, client := st, trace := [], reqs := [refreshReq st] }
    | resp :: rest =>
      match refreshStep st resp with
      | (.error e, w) =>
        { result := .error e, client := st, trace := rest, reqs := [refreshReq st],
          writes := w }
      | (.ok st2, w) =>
        { result := .ok (), client := st2, trace := rest, reqs := [refreshReq st],
          writes := w }

/-- The authenticated request makeRequest issues for an endpoint. -/
def apiReq (st : Client) (endpoint : String) (m : HttpMethod) (b : Option String) :
    Request :=
  { url := baseUrl ++ endpoint, method := m, auth := st.accessToken, reqBody := b }

/-- makeRequest (lines 492-539): auth guard, then fetch; on 401 it runs
    refreshAccessToken and re-invokes itself on the remaining trace (the
    source recursion has no retry bound); on non-ok it fails with the
    service message and status; 204 and non-JSON bodies yield the empty
    object.  The refresh call is inlined as the falsy-token guard plus
    refreshStep on the next scripted response, exactly the body of
    refreshAccessToken. -/
def makeRequest (st : Client) (endpoint : String) (m : HttpMethod)
    (b : Option String) : List HttpResponse → Eff Body
  | [] =>
    if !truthy st.accessToken then
      { result := .error .notAuthenticated, client := st, trace := [], reqs := [] }
    else
      { result := .error .noResponse, client := st, trace := [],
        reqs := [apiReq st endpoint m b] }
  | resp :: rest =>
    if !truthy st.accessToken then
      { result := .error .notAuthenticated, client := st, trace := resp :: rest,
        reqs := [] }
    else if resp.status = 401 then
      if !truthy st.refreshToken then
        { result := .error .missingRefreshToken, client := st, trace := rest,
          reqs := [apiReq st endpoint m b] }
      else
        match rest with
        | [] =>
          { result := .error .noResponse, client := st, trace := [],
            reqs := [apiReq st endpoint m b, refreshReq st] }
        | rr :: rest2 =>
          match refreshStep st rr with
          | (.error e, w) =>
            { result := .error e, client := st, trace := rest2,
              reqs := [apiReq st endpoint m b, refreshReq st], writes := w }
          | (.ok st2, w) =>
            let out := makeRequest st2 endpoint m b rest2
            { result := out.result, client := out.client, trace := out.trace,
              reqs := apiReq st endpoint m b :: refreshReq st :: out.reqs,
              writes := w ++ out.writes }
    else if !resp.isOk then
      { result := .error (.apiRequest resp.body.error_message resp.status),
        client := st, trace := rest, reqs := [apiReq st endpoint m b] }
    else if resp.status = 204 then
      { result := .ok {}, client := st, trace := rest, reqs := [apiReq st endpoint m b] }
    else if resp.contentTypeJson then
      { result := .ok resp.body, client := st, trace := rest,
        reqs := [apiReq st endpoint m b] }
    else
      { result := .ok {}, client := st, trace := rest, reqs := [apiReq st endpoint m b] }

/-- The field-by-field track mapping (mapSpotifyTrackToTrack, lines 589-606,
    and the inline map of getCurrentlyPlaying, lines 408-423): unknown server
    fields are dropped, listed fields are copied. -/
def mapSpotifyTrackToTrack (item : TrackObj) : Track :=
  { id := item.id
    name := item.name
    artists := item.artists.map fun a => { id := a.id, name := a.name }
    album :=
      { id := item.album.id
        name := item.album.name
        images := item.album.images
        release_date := item.album.release_date }
    duration_ms := item.duration_ms
    preview_url := item.preview_url }

def currentlyPlayingUrl : String :=
  "https://api.spotify.com/v1/me/player/currently-playing"

def cpReq (st : Client) : Request :=
  { url := currentlyPlayingUrl, method := .get, auth := st.accessToken }

/-- getCurrentlyPlaying (lines 384-429): auth guard, fetch; 204 yields null;
    401 refreshes and re-invokes the whole method; other non-ok statuses
    fail with the service message; an ok body without an item yields null,
    otherwise the mapped Track. -/
def getCurrentlyPlaying (st : Client) : List HttpResponse → Eff (Option Track)
  | [] =>
    if !truthy st.accessToken then
      { result := .error .notAuthenticated, client := st, trace := [], reqs := [] }
    else
      { result := .error .noResponse, client := st, trace := [], reqs := [cpReq st] }
  | resp :: rest =>
    if !truthy st.accessToken then
      { result := .error .notAuthenticated, client := st, trace := resp :: rest,
        reqs := [] }
    else if resp.status = 204 then
      { result := .ok none, client := st, trace := rest, reqs := [cpReq st] }
    else if resp.status = 401 then
      if !truthy st.refreshToken then
        { result := .error .missingRefreshToken, client := st, trace := rest,
          reqs := [cpReq st] }
      else
        match rest with
        | [] =>
          { result := .error .noResponse, client := st, trace := [],
            reqs := [cpReq st, refreshReq st] }
        | rr :: rest2 =>
          match refreshStep st rr with
          | (.error e, w) =>
            { result := .error e, client := st, trace := rest2,
              reqs := [cpReq st, refreshReq st], writes := w }
          | (.ok st2, w) =>
            let out := getCurrentlyPlaying st2 rest2
            { result := out.result, client := out.client, trace := out.trace,
              reqs := cpReq st :: refreshReq st :: out.reqs,
              writes := w ++ out.writes }
    else if !resp.isOk then
      { result := .error (.currentlyPlayingFailed resp.body.error_message),
        client := st, trace := rest, reqs := [cpReq st] }
    else
      match resp.body.item with
      | none =>
        { result := .ok none, client := st, trace := rest, reqs := [cpReq st] }
      | some item =>
        { result := .ok (some (mapSpotifyTrackToTrack item)), client := st,
          trace := rest, reqs := [cpReq st] }

/-- The field-by-field playlist mapping applied to each page item
    (lines 462-475). -/
def mapPlaylist (item : RawPlaylist) : Playlist :=
  { id := item.id
    name := item.name
    description := item.description
    images := item.images
    tracks := { total := item.tracks.total, href := item.tracks.href }
    owner := { id := item.owner.id, display_name := item.owner.display_name } }

def playlistsStartUrl : String := "https://api.spotify.com/v1/me/playlists?limit=50"

def plReq (st : Client) (url : String) : Request :=
  { url := url, method := .get, auth := st.accessToken }

/-- The pagination loop of getUserPlaylists (lines 443-479).  A 401 runs
    refreshAccessToken and then re-invokes getUserPlaylists from scratch
    (auth guard, empty accumulator, first-page URL).  An ok page appends its
    mapped items and continues while data.next is truthy. -/
def playlistsLoop (st : Client) (acc : List Playlist) (url : String) :
    List HttpResponse → Eff (List Playlist)
  | [] =>
    { result := .error .noResponse, client := st, trace := [],
      reqs := [plReq st url] }
  | resp :: rest =>
    if resp.status = 401 then
      if !truthy st.refreshToken then
        { result := .error .missingRefreshToken, client := st, trace := rest,
          reqs := [plReq st url] }
      else
        match rest with
        | [] =>
          { result := .error .noResponse, client := st, trace := [],
            reqs := [plReq st url, refreshReq st] }
        | rr :: rest2 =>
          match refreshStep st rr with
          | (.error e, w) =>
            { result := .error e, client := st, trace := rest2,
              reqs := [plReq st url, refreshReq st], writes := w }
          | (.ok st2, w) =>
            if !truthy st2.accessToken then
              { result := .error .notAuthenticated, client := st2, trace := rest2,
                reqs := [plReq st url, refreshReq st], writes := w }
            else
              let out := playlistsLoop st2 [] playlistsStartUrl rest2
              { result := out.result, client := out.client, trace := out.trace,
                reqs := plReq st url :: refreshReq st :: out.reqs,
                writes := w ++ out.writes }
    else if !resp.isOk then
      { result := .error (.playlistsFailed resp.body.error_message), client := st,
        trace := rest, reqs := [plReq st url] }
    else
      let acc2 := acc ++ resp.body.items.map mapPlaylist
      match resp.body.next with
      | none =>
        { result := .ok acc2, client := st, trace := rest, reqs := [plReq st url] }
      | some u =>
        if u = "" then
          { result := .ok acc2, client := st, trace := rest, reqs := [plReq st url] }
        else
          let out := playlistsLoop st acc2 u rest
          { result := out.result, client := out.client, trace := out.trace,
            reqs := plReq st url :: out.reqs, writes := out.writes }

/-- getUserPlaylists (lines 434-486): auth guard, then the pagination loop
    starting from the fixed first-page URL with an empty accumulator. -/
def getUserPlaylists (st : Client) (trace : List HttpResponse) :
    Eff (List Playlist) :=
  if !truthy st.accessToken then
    { result := .error .notAuthenticated, client := st, trace := trace, reqs := [] }
  else
    playlistsLoop st [] playlistsStartUrl trace

def playerUrl : String := "https://api.spotify.com/v1/me/player"

def pbReq (st : Client) : Request :=
  { url := playerUrl, method := .get, auth := st.accessToken }

/-- getPlaybackState (lines 624-644): no auth guard; fetch with whatever
    token is held; 204 yields null; 401 refreshes and re-invokes; every
    other response, ok or not, is parsed and returned as-is. -/
def getPlaybackState (st : Client) : List HttpResponse → Eff (Option Body)
  | [] =>
    { result := .error .noResponse, client := st, trace := [], reqs := [pbReq st] }
  | resp :: rest =>
    if resp.status = 204 then
      { result := .ok none, client := st, trace := rest, reqs := [pbReq st] }
    else if resp.status = 401 then
      if !truthy st.refreshToken then
        { result := .error .missingRefreshToken, client := st, trace := rest,
          reqs := [pbReq st] }
      else
        match rest with
        | [] =>
          { result := .error .noResponse, client := st, trace := [],
            reqs := [pbReq st, refreshReq st] }
        | rr :: rest2 =>
          match refreshStep st rr with
          | (.error e, w) =>
            { result := .error e, client := st, trace := rest2,
              reqs := [pbReq st, refreshReq st], writes := w }
          | (.ok st2, w) =>
            let out := getPlaybackState st2 rest2
            { result := out.result, client := out.client, trace := out.trace,
              reqs := pbReq st :: refreshReq st :: out.reqs,
              writes := w ++ out.writes }
    else
      { result := .ok (some resp.body), client := st, trace := rest,
        reqs := [pbReq st] }

/-- getDevices (lines 611-619): makeRequest on the devices endpoint,
    projecting the devices field of the body. -/
def getDevices (st : Client) (trace : List HttpResponse) : Eff (List Device) :=
  let out := makeRequest st "/me/player/devices" .get none trace
  { result := out.result.map fun b => b.devices
    client := out.client, trace := out.trace, reqs := out.reqs,
    writes := out.writes }

/-- Whitespace trim of query.trim(), written with structural recursion so
    that it evaluates inside the kernel. -/
def jsTrim (s : String) : String :=
  ⟨((s.data.dropWhile Char.isWhitespace).reverse.dropWhile
      Char.isWhitespace).reverse⟩

/-- searchTracks (lines 546-562): empty/whitespace query fails before any
    network call; otherwise makeRequest on the search endpoint and map
    data.tracks.items.  URL-encoding of the query is not modelled. -/
def searchTracks (q : String) (st : Client) (trace : List HttpResponse) :
    Eff (List Track) :=
  if jsTrim q = "" then
    { result := .error .emptyQuery, client := st, trace := trace, reqs := [] }
  else
    let out := makeRequest st ("/search?q=" ++ q ++ "&type=track&limit=20") .get
      none trace
    { result := out.result.map fun b => b.tracks_items.map mapSpotifyTrackToTrack
      client := out.client, trace := out.trace, reqs := out.reqs,
      writes := out.writes }

/-- getRecommendations (lines 569-584): seed-count guard before any network
    call; otherwise makeRequest and map data.tracks. -/
def getRecommendations (seeds : List String) (st : Client)
    (trace : List HttpResponse) : Eff (List Track) :=
  if seeds.length = 0 || seeds.length > 5 then
    { result := .error .invalidSeedCount, client := st, trace := trace, reqs := [] }
  else
    let out := makeRequest st
      ("/recommendations?seed_tracks=" ++ String.intercalate "," seeds ++ "&limit=20")
      .get none trace
    { result := out.result.map fun b => b.rec_tracks.map mapSpotifyTrackToTrack
      client := out.client, trace := out.trace, reqs := out.reqs,
      writes := out.writes }

/-- playTrack (lines 650-674): falsy trackId fails first; then the device
    list is fetched and, absent an active device, the no-active-device
    failure is raised without the play request; otherwise the play command
    is sent through makeRequest. -/
def playTrack (trackId : String) (st : Client) (trace : List HttpResponse) :
    Eff Unit :=
  if trackId = "" then
    { result := .error .trackIdRequired, client := st, trace := trace, reqs := [] }
  else
    let d := getDevices st trace
    match d.result with
    | .error e =>
      { result := .error e, client := d.client, trace := d.trace, reqs := d.reqs,
        writes := d.writes }
    | .ok devices =>
      match devices.find? (fun dev => dev.is_active) with
      | none =>
        { result := .error .noActiveDevice, client := d.client, trace := d.trace,
          reqs := d.reqs, writes := d.writes }
      | some _ =>
        let p := makeRequest d.client "/me/player/play" .put
          (some ("spotify:track:" ++ trackId)) d.trace
        { result := p.result.map fun _ => (), client := p.client, trace := p.trace,
          reqs := d.reqs ++ p.reqs, writes := d.writes ++ p.writes }

/-- pauseTrack (lines 679-693): fetches the playback state; a null state or
    a falsy is_playing returns normally with no further request; otherwise
    the pause command is sent through makeRequest. -/
def pauseTrack (st : Client) (trace : List HttpResponse) : Eff Unit :=
  let s := getPlaybackState st trace
  match s.result with
  | .error e =>
    { result := .error e, client := s.client, trace := s.trace, reqs := s.reqs,
      writes := s.writes }
  | .ok stateOpt =>
    let playing := match stateOpt with
      | none => false
      | some b => b.is_playing.getD false
    if !playing then
      { result := .ok (), client := s.client, trace := s.trace, reqs := s.reqs,
        writes := s.writes }
    else
      let p := makeRequest s.client "/me/player/pause" .put none s.trace
      { result := p.result.map fun _ => (), client := p.client, trace := p.trace,
        reqs := s.reqs ++ p.reqs, writes := s.writes ++ p.writes }

/-- togglePlayback (lines 698-721): fetches the playback state; a null
    state fails with the no-active-playback error; otherwise pause or play
    is sent depending on is_playing. -/
def togglePlayback (st : Client) (trace : List HttpResponse) : Eff Unit :=
  let s := getPlaybackState st trace
  match s.result with
  | .error e =>
    { result := .error e, client := s.client, trace := s.trace, reqs := s.reqs,
      writes := s.writes }
  | .ok none =>
    { result := .error .noActivePlayback, client := s.client, trace := s.trace,
      reqs := s.reqs, writes := s.writes }
  | .ok (some b) =>
    let endpoint := if b.is_playing.getD false then "/me/player/pause"
      else "/me/player/play"
    let p := makeRequest s.client endpoint .put none s.trace
    { result := p.result.map fun _ => (), client := p.client, trace := p.trace,
      reqs := s.reqs ++ p.reqs, writes := s.writes ++ p.writes }

/-- skipToNext (lines 726-730). -/
def skipToNext (st : Client) (trace : List HttpResponse) : Eff Unit :=
  let out := makeRequest st "/me/player/next" .post none trace
  { result := out.result.map fun _ => (), client := out.client, trace := out.trace,
    reqs := out.reqs, writes := out.writes }

/-- skipToPrevious (lines 735-739). -/
def skipToPrevious (st : Client) (trace : List HttpResponse) : Eff Unit :=
  let out := makeRequest st "/me/player/previous" .post none trace
  { result := out.result.map fun _ => (), client := out.client, trace := out.trace,
    reqs := out.reqs, writes := out.writes }

/-- seek (lines 745-753): negative positions fail before any network call. -/
def seek (positionMs : Int) (st : Client) (trace : List HttpResponse) : Eff Unit :=
  if positionMs < 0 then
    { result := .error .negativePosition, client := st, trace := trace, reqs := [] }
  else
    let out := makeRequest st
      ("/me/player/seek?position_ms=" ++ toString positionMs) .put none trace
    { result := out.result.map fun _ => (), client := out.client, trace := out.trace,
      reqs := out.reqs, writes := out.writes }

def profileUrl : String := "https://api.spotify.com/v1/me"

def tokenExchangeReq (code : String) : Request :=
  { url := tokenUrl, method := .post, auth := none, reqBody := some code }

/-- handleAuthCallback (lines 287-316): posts the code to the token
    endpoint and, with no status check, stores the access_token and
    refresh_token fields; then fetches the profile with the new token and,
    again with no status check, caches and returns the parsed body. -/
def handleAuthCallback (code : String) (st : Client) :
    List HttpResponse → Eff Body
  | [] =>
    { result := .error .noResponse, client := st, trace := [],
      reqs := [tokenExchangeReq code] }
  | t :: rest =>
    let st1 : Client :=
      { st with accessToken := t.body.access_token,
                refreshToken := t.body.refresh_token }
    match rest with
    | [] =>
      { result := .error .noResponse, client := st1, trace := [],
        reqs := [tokenExchangeReq code,
                 { url := profileUrl, method := .get, auth := st1.accessToken }] }
    | u :: rest2 =>
      { result := .ok u.body
        client := { st1 with user := some u.body }
        trace := rest2
        reqs := [tokenExchangeReq code,
                 { url := profileUrl, method := .get, auth := st1.accessToken }] }

instance {ε α : Type} [DecidableEq ε] [DecidableEq α] : DecidableEq (Except ε α) :=
  fun x y =>
    match x, y with
    | .error a, .error b =>
      if h : a = b then isTrue (by rw [h])
      else isFalse (fun hc => h (Except.error.inj hc))
    | .error _, .ok _ => isFalse (fun hc => Except.noConfusion hc)
    | .ok _, .error _ => isFalse (fun hc => Except.noConfusion hc)
    | .ok a, .ok b =>
      if h : a = b then isTrue (by rw [h])
      else isFalse (fun hc => h (Except.ok.inj hc))

/-- The play command request URL test. -/
def isPlayReq (r : Request) : Bool := r.url == baseUrl ++ "/me/player/play"

/-- The pause command request URL test. -/
def isPauseReq (r : Request) : Bool := r.url == baseUrl ++ "/me/player/pause"

/-- JS truthiness of the pauseTrack playback condition: a null state or an
    absent or false is_playing flag is falsy. -/
def isPlayingOf : Option Body → Bool
  | none => false
  | some b => b.is_playing.getD false

/-- A well-formed run of paginated responses: every page answers 200, each
    non-final page carries a truthy next link, and the final page carries
    none. -/
def chainedPages : List HttpResponse → Bool
  | [] => true
  | r :: rest =>
    (r.status == 200) &&
    (match rest with
     | [] => r.body.next == none
     | _ :: _ =>
       match r.body.next with
       | none => false
       | some u => u != "") &&
    chainedPages rest

/-- Fixture: an authenticated client. -/
def stAuthed : Client := { accessToken := some "tokA", refreshToken := some "r1" }

/-- Fixture: a trace answering 401 to the first attempt, success to its
    refresh, 401 again to the retry, success to the second refresh, and 200
    to the third attempt. -/
def c1Trace : List HttpResponse :=
  [{ status := 401 },
   { status := 200,
     body := { access_token := some "tokB", refresh_token := some "r2" } },
   { status := 401 },
   { status := 200, body := { access_token := some "tokC" } },
   { status := 200, body := { is_playing := some true } }]

/-- Fixture: a sample raw playlist item. -/
def rawPl (i : String) : RawPlaylist :=
  { id := i, name := "Playlist " ++ i, description := none, images := [],
    tracks := { total := 0, href := "h" },
    owner := { id := "o", display_name := "O" } }

/-- Fixture: two playlist pages chained by a next link. -/
def c6Pages : List HttpResponse :=
  [{ status := 200,
     body := { items := [rawPl "p1", rawPl "p2"],
               next := some "https://api.spotify.com/v1/me/playlists?offset=50&limit=50" } },
   { status := 200, body := { items := [rawPl "p3"] } }]

/-! Helper lemmas shared by the claim theorems. -/

/-- With a falsy access token, makeRequest fails before issuing any
    request and leaves everything untouched. -/
theorem makeRequest_not_authed (st : Client) (e : String) (m : HttpMethod)
    (b : Option String) (trace : List HttpResponse)
    (h : truthy st.accessToken = false) :
    makeRequest st e m b trace =
      { result := .error .notAuthenticated, client := st, trace := trace,
        reqs := [] } := by
  cases trace <;> (rw [makeRequest.eq_def]; simp [h])

/-- With a truthy access token, the first request makeRequest issues is the
    endpoint request carrying the held token. -/
theorem makeRequest_reqs_head (st : Client) (e : String) (m : HttpMethod)
    (b : Option String) (trace : List HttpResponse)
    (h : truthy st.accessToken = true) :
    (makeRequest st e m b trace).reqs.head? = some (apiReq st e m b) := by
  cases trace with
  | nil => rw [makeRequest.eq_def]; simp [h]
  | cons resp rest =>
    rw [makeRequest.eq_def]
    by_cases h401 : resp.status = 401
    · by_cases hrt : truthy st.refreshToken
      · cases rest with
        | nil => simp [h, h401, hrt]
        | cons rr rest2 =>
          rcases hrs : refreshStep st rr with ⟨res, w⟩
          cases res <;> simp [h, h401, hrt, hrs]
      · simp [h, h401, hrt]
    · by_cases hok : resp.isOk <;> by_cases h204 : resp.status = 204 <;>
        by_cases hct : resp.contentTypeJson <;>
        simp [h, h401, hok, h204, hct]

/-- Every request makeRequest ever issues goes to the given endpoint or to
    the token endpoint. -/
theorem makeRequest_reqs_urls (st : Client) (e : String) (m : HttpMethod)
    (b : Option String) (trace : List HttpResponse) :
    ∀ r ∈ (makeRequest st e m b trace).reqs,
      r.url = baseUrl ++ e ∨ r.url = tokenUrl := by
  induction st, e, m, b, trace using makeRequest.induct with
  | case1 st e m b h => rw [makeRequest.eq_def]; simp [h]
  | case2 st e m b h =>
    rw [makeRequest.eq_def]
    simp [Bool.not_eq_true] at h
    simp [h, apiReq]
  | case3 st e m b resp rest h => rw [makeRequest.eq_def]; simp [h]
  | case4 st e m b resp rest h h401 hrt =>
    rw [makeRequest.eq_def]
    simp [Bool.not_eq_true] at h
    simp [h, h401, hrt, apiReq]
  | case5 st e m b resp h h401 hrt =>
    rw [makeRequest.eq_def]
    simp [Bool.not_eq_true] at h hrt
    simp [h, h401, hrt, apiReq, refreshReq]
  | case6 st e m b resp h h401 hrt rr rest err w hrs =>
    rw [makeRequest.eq_def]
    simp [Bool.not_eq_true] at h hrt
    simp [h, h401, hrt, hrs, apiReq, refreshReq]
  | case7 st e m b resp h h401 hrt rr rest st2 w hrs ih =>
    rw [makeRequest.eq_def]
    simp [Bool.not_eq_true] at h hrt
    simp only [h, h401, hrt, hrs]
    simp [apiReq, refreshReq, List.mem_cons]
    exact ih
  | case8 st e m b resp rest h h401 hok =>
    rw [makeRequest.eq_def]
    simp [Bool.not_eq_true] at h
    simp [h, h401, hok, apiReq]
  | case9 st e m b resp rest h h401 hok h204 =>
    rw [makeRequest.eq_def]
    simp [Bool.not_eq_true] at h
    simp [h, h401, hok, h204, apiReq]
  | case10 st e m b resp rest h h401 hok h204 hct =>
    rw [makeRequest.eq_def]
    simp [Bool.not_eq_true] at h
    simp [h, h401, hok, h204, hct, apiReq]
  | case11 st e m b resp rest h h401 hok h204 hct =>
    rw [makeRequest.eq_def]
    simp [Bool.not_eq_true] at h
    simp [h, h401, hok, h204, hct, apiReq]


theorem getPlaybackState_reqs_head (st : Client) (trace : List HttpResponse) :
    (getPlaybackState st trace).reqs.head? = some (pbReq st) := by
  cases trace with
  | nil => rw [getPlaybackState.eq_def]; simp
  | cons resp rest =>
    rw [getPlaybackState.eq_def]
    by_cases h204 : resp.status = 204
    · simp [h204]
    · by_cases h401 : resp.status = 401
      · by_cases hrt : truthy st.refreshToken
        · cases rest with
          | nil => simp [h204, h401, hrt]
          | cons rr rest2 =>
            rcases hrs : refreshStep st rr with ⟨res, w⟩
            cases res <;> simp [h204, h401, hrt, hrs]
        · simp [h204, h401, hrt]
      · simp [h204, h401]

theorem getPlaybackState_reqs_urls (st : Client) (trace : List HttpResponse) :
    ∀ r ∈ (getPlaybackState st trace).reqs,
      r.url = playerUrl ∨ r.url = tokenUrl := by
  induction st, trace using getPlaybackState.induct with
  | case1 st => rw [getPlaybackState.eq_def]; simp [pbReq]
  | case2 st resp rest h204 => rw [getPlaybackState.eq_def]; simp [h204, pbReq]
  | case3 st resp rest h204 h401 hrt =>
    rw [getPlaybackState.eq_def]; simp [h204, h401, hrt, pbReq]
  | case4 st resp h204 h401 hrt =>
    rw [getPlaybackState.eq_def]
    simp [Bool.not_eq_true] at hrt
    simp [h204, h401, hrt, pbReq, refreshReq]
  | case5 st resp h204 h401 hrt rr rest err w hrs =>
    rw [getPlaybackState.eq_def]
    simp [Bool.not_eq_true] at hrt
    simp [h204, h401, hrt, hrs, pbReq, refreshReq]
  | case6 st resp h204 h401 hrt rr rest st2 w hrs ih =>
    rw [getPlaybackState.eq_def]
    simp [Bool.not_eq_true] at hrt
    simp only [h204, h401, hrt, hrs]
    simp [pbReq, refreshReq, List.mem_cons]
    exact ih
  | case7 st resp rest h204 h401 =>
    rw [getPlaybackState.eq_def]; simp [h204, h401, pbReq]

/-- No request getPlaybackState issues is the pause (or any player command)
    request. -/
theorem getPlaybackState_no_pause (st : Client) (trace : List HttpResponse) :
    (getPlaybackState st trace).reqs.any isPauseReq = false := by
  rw [List.any_eq_false]
  intro r hr
  rcases getPlaybackState_reqs_urls st trace r hr with h1 | h1 <;>
    simp [isPauseReq, h1, playerUrl, tokenUrl, baseUrl]

theorem pauseTrack_reqs_head (st : Client) (trace : List HttpResponse) :
    (pauseTrack st trace).reqs.head? = some (pbReq st) := by
  have hh := getPlaybackState_reqs_head st trace
  rw [pauseTrack]
  cases hres : (getPlaybackState st trace).result with
  | error e => simp [hres, hh]
  | ok s =>
    cases s with
    | none => simp [hres, hh]
    | some b =>
      by_cases hp : b.is_playing.getD false
      · simp only [hres, hp]
        cases hl : (getPlaybackState st trace).reqs with
        | nil => rw [hl] at hh; simp at hh
        | cons a l => rw [hl] at hh; simp at hh; simp [hh]
      · simp [hres, hp, hh]

theorem togglePlayback_reqs_head (st : Client) (trace : List HttpResponse) :
    (togglePlayback st trace).reqs.head? = some (pbReq st) := by
  have hh := getPlaybackState_reqs_head st trace
  rw [togglePlayback]
  cases hres : (getPlaybackState st trace).result with
  | error e => simp [hres, hh]
  | ok s =>
    cases s with
    | none => simp [hres, hh]
    | some b =>
      simp only [hres]
      cases hl : (getPlaybackState st trace).reqs with
      | nil => rw [hl] at hh; simp at hh
      | cons a l => rw [hl] at hh; simp at hh; simp [hh]


/-- Invariant of the pagination loop on a well-formed run of pages: the
    accumulated items are extended by every page in order, the whole trace
    is consumed, and the client is untouched. -/
theorem playlistsLoop_chained (pages : List HttpResponse) :
    ∀ (st : Client) (acc : List Playlist) (url : String),
      chainedPages pages = true → pages ≠ [] →
      (playlistsLoop st acc url pages).result =
        .ok (acc ++ (pages.map fun r => r.body.items.map mapPlaylist).flatten) ∧
      (playlistsLoop st acc url pages).trace = [] ∧
      (playlistsLoop st acc url pages).client = st := by
  induction pages with
  | nil => intro st acc url hch hne; exact absurd rfl hne
  | cons r rest ih =>
    intro st acc url hch hne
    rw [chainedPages.eq_def] at hch
    simp only [Bool.and_eq_true, beq_iff_eq] at hch
    obtain ⟨⟨hst, hnx⟩, hch2⟩ := hch
    have h401 : ¬ r.status = 401 := by rw [hst]; decide
    have hok : r.isOk = true := by rw [HttpResponse.isOk, hst]; decide
    rw [playlistsLoop.eq_def]
    cases rest with
    | nil =>
      simp only [] at hnx
      have hnone : r.body.next = none := by
        cases hx : r.body.next with
        | none => rfl
        | some u => rw [hx] at hnx; simp at hnx
      simp [h401, hok, hnone]
    | cons rr rest2 =>
      have hu : ∃ u, r.body.next = some u ∧ u ≠ "" := by
        cases hx : r.body.next with
        | none => rw [hx] at hnx; simp at hnx
        | some u =>
          rw [hx] at hnx
          refine ⟨u, rfl, ?_⟩
          simpa using hnx
      obtain ⟨u, hxu, hune⟩ := hu
      have hrec := ih st (acc ++ r.body.items.map mapPlaylist) u hch2 (by simp)
      simp [h401, hok, hxu, hune, hrec.1, hrec.2.1, hrec.2.2]

/-- The request log of getDevices is the request log of its makeRequest
    call. -/
theorem getDevices_reqs (st : Client) (trace : List HttpResponse) :
    (getDevices st trace).reqs =
      (makeRequest st "/me/player/devices" .get none trace).reqs := rfl

/-- No request issued while fetching the device list is the play command. -/
theorem getDevices_no_play (st : Client) (trace : List HttpResponse) :
    (getDevices st trace).reqs.any isPlayReq = false := by
  rw [List.any_eq_false]
  intro r hr
  rw [getDevices_reqs] at hr
  rcases makeRequest_reqs_urls st "/me/player/devices" .get none trace r hr
    with h1 | h1 <;> simp [isPlayReq, h1, baseUrl, tokenUrl]


/-! Claim theorems. -/

/-- Claim C1: the spec (and the retry-once comments in the source) say a
    401 triggers exactly one refresh and one retried request, a second 401
    propagating as an error with no further refresh.  The code instead
    re-invokes itself after every refresh: on the scripted run 401,
    refresh-ok, 401, refresh-ok, 200 it calls the token endpoint twice,
    attempts the request three times, and returns the final body
    successfully. -/
theorem c1_second_401_refreshes_again :
    ((makeRequest stAuthed "/e" .get none c1Trace).reqs.filter
        (fun r => r.url = tokenUrl)).length = 2 ∧
    ((makeRequest stAuthed "/e" .get none c1Trace).reqs.filter
        (fun r => r.url = baseUrl ++ "/e")).length = 3 ∧
    (makeRequest stAuthed "/e" .get none c1Trace).result =
      .ok { is_playing := some true } := by
  refine ⟨?_, ?_, ?_⟩ <;> rfl

/-- Claim C4 counterexample: with the token endpoint answering 400 and the
    profile endpoint 403, handleAuthCallback raises nothing: it returns the
    parsed profile body as the user and leaves the access token null. -/
theorem c4_no_failure_on_error_status :
    (handleAuthCallback "c" { }
        [{ status := 400, body := { error_description := some "invalid_grant" } },
         { status := 403, body := { error_message := some "forbidden" } }]).result =
      .ok { error_message := some "forbidden" } ∧
    (handleAuthCallback "c" { }
        [{ status := 400, body := { error_description := some "invalid_grant" } },
         { status := 403, body := { error_message := some "forbidden" } }]).client.accessToken
      = none := ⟨rfl, rfl⟩

/-- Claim C4 (amended): handleAuthCallback performs no status checking at
    all: for any pair of responses it stores the token-body access_token
    and refresh_token fields as-is, fetches the profile with that token,
    and returns the parsed profile body, succeeding whatever the statuses
    were. -/
theorem c4_handleAuthCallback_amended (st : Client) (code : String)
    (t u : HttpResponse) (rest : List HttpResponse) :
    (handleAuthCallback code st (t :: u :: rest)).result = .ok u.body ∧
    (handleAuthCallback code st (t :: u :: rest)).client =
      { accessToken := t.body.access_token,
        refreshToken := t.body.refresh_token, user := some u.body } ∧
    (handleAuthCallback code st (t :: u :: rest)).reqs =
      [tokenExchangeReq code,
       { url := profileUrl, method := .get, auth := t.body.access_token }] :=
  ⟨rfl, rfl, rfl⟩

/-- Claim C5 counterexample: a stored empty-string token is coerced to null
    by the x or-null coercion, so the in-memory token differs from the
    value read back from storage. -/
theorem c5_empty_string_not_round_tripped :
    loadTokens (.ok (some "")) (.ok (some "")) { } =
      .ok { accessToken := none, refreshToken := none, user := none } ∧
    (none : Option String) ≠ some "" :=
  ⟨rfl, by decide⟩

/-- Claim C5 (amended): non-empty stored values round-trip exactly into the
    in-memory tokens, absent keys yield null without error, and the
    token-load failure occurs exactly when a storage read fails. -/
theorem c5_loadTokens_amended (st : Client) (a r : String) (ra rr : StoreRead)
    (ha : a ≠ "") (hr : r ≠ "") :
    loadTokens (.ok (some a)) (.ok (some r)) st =
      .ok { st with accessToken := some a, refreshToken := some r } ∧
    loadTokens (.ok none) (.ok none) st =
      .ok { st with accessToken := none, refreshToken := none } ∧
    (loadTokens ra rr st = .error .tokenLoadFailed ↔ (ra = .err ∨ rr = .err)) := by
  refine ⟨?_, ?_, ?_⟩
  · simp [loadTokens, orNull, ha, hr]
  · simp [loadTokens, orNull]
  · cases ra <;> cases rr <;> simp [loadTokens]

/-- Claim C5 witness. -/
theorem c5_loadTokens_amended_witness :
    loadTokens (.ok (some "x")) (.ok (some "y")) { } =
      .ok { accessToken := some "x", refreshToken := some "y", user := none } :=
  (c5_loadTokens_amended { } "x" "y" (.ok none) (.ok none) (by decide) (by decide)).1

/-- Claim C7: with no refresh token held, refreshAccessToken fails with the
    missing-refresh-token error, issues zero network calls and leaves the
    client unchanged; with one held and a non-2xx token-endpoint response
    it fails with the refresh-failed error carrying the service-provided
    error description. -/
theorem c7_refresh_error_cases (st st2 : Client) (trace rest : List HttpResponse)
    (resp : HttpResponse) (d : String)
    (h1 : st.refreshToken = none) (h2 : truthy st2.refreshToken = true)
    (h3 : resp.isOk = false) (h4 : resp.body.error_description = some d) :
    refreshAccessToken st trace =
      { result := .error .missingRefreshToken, client := st, trace := trace,
        reqs := [] } ∧
    (refreshAccessToken st2 (resp :: rest)).result =
      .error (.refreshFailed (some d) resp.status) ∧
    (refreshAccessToken st2 (resp :: rest)).reqs = [refreshReq st2] := by
  have hf : truthy st.refreshToken = false := by rw [h1]; rfl
  refine ⟨?_, ?_, ?_⟩
  · rw [refreshAccessToken.eq_def]; simp [hf]
  · rw [refreshAccessToken.eq_def]; simp [h2, refreshStep, h3, h4]
  · rw [refreshAccessToken.eq_def]; simp [h2, refreshStep, h3]

/-- Claim C7 witness. -/
theorem c7_refresh_error_cases_witness :
    refreshAccessToken { } [] =
      { result := .error .missingRefreshToken, client := { }, trace := [],
        reqs := [] } ∧
    (refreshAccessToken stAuthed
        [{ status := 400,
           body := { error_description := some "invalid_grant" } }]).result =
      .error (.refreshFailed (some "invalid_grant") 400) := by
  have h := c7_refresh_error_cases { } stAuthed [] []
      { status := 400, body := { error_description := some "invalid_grant" } }
      "invalid_grant" rfl (by decide) (by decide) rfl
  exact ⟨h.1, h.2.1⟩

/-- Claim C9: getCurrentlyPlaying returns null as a normal result both on a
    204 response and on any successful 200 response whose body carries no
    item. -/
theorem c9_currently_playing_null (st : Client) (a : String) (b204 b200 : Body)
    (rest : List HttpResponse)
    (ha : st.accessToken = some a) (hne : a ≠ "") (hit : b200.item = none) :
    (getCurrentlyPlaying st ({ status := 204, body := b204 } :: rest)).result =
      .ok none ∧
    (getCurrentlyPlaying st ({ status := 200, body := b200 } :: rest)).result =
      .ok none := by
  have htr : truthy st.accessToken = true := by rw [ha]; simp [truthy, hne]
  constructor
  · rw [getCurrentlyPlaying.eq_def]; simp [htr]
  · rw [getCurrentlyPlaying.eq_def]; simp [htr, hit, HttpResponse.isOk]

/-- Claim C9 witness. -/
theorem c9_currently_playing_null_witness :
    (getCurrentlyPlaying stAuthed [{ status := 204 }]).result = .ok none ∧
    (getCurrentlyPlaying stAuthed [{ status := 200 }]).result = .ok none :=
  ⟨(c9_currently_playing_null stAuthed "tokA" {} {} [] rfl (by decide) rfl).1,
   (c9_currently_playing_null stAuthed "tokA" {} {} [] rfl (by decide) rfl).2⟩


/-- Claim C2 counterexample: getPlaybackState with a null access token does
    not fail with the not-authenticated error: it issues the player fetch
    carrying the null token and returns the parsed body normally. -/
theorem c2_getPlaybackState_no_auth_guard :
    (getPlaybackState { }
        [{ status := 200, body := { is_playing := some true } }]).reqs =
      [{ url := playerUrl, method := .get, auth := none }] ∧
    (getPlaybackState { }
        [{ status := 200, body := { is_playing := some true } }]).result =
      .ok (some { is_playing := some true }) := ⟨rfl, rfl⟩

/-- Claim C2 (amended): with a null access token every listed operation
    except getPlaybackState, pauseTrack and togglePlayback fails with the
    not-authenticated error before issuing any request, provided its own
    client-side argument guard passes; those three instead begin by issuing
    the playback-state fetch that carries the null token. -/
theorem c2_auth_guard_amended (st : Client) (trace : List HttpResponse)
    (q tid : String) (seeds : List String) (p : Int)
    (h : st.accessToken = none) (hq : jsTrim q ≠ "") (hs0 : seeds.length ≠ 0)
    (hs5 : seeds.length ≤ 5) (ht : tid ≠ "") (hp : 0 ≤ p) :
    ((getCurrentlyPlaying st trace).result = .error .notAuthenticated ∧
      (getCurrentlyPlaying st trace).reqs = []) ∧
    ((getUserPlaylists st trace).result = .error .notAuthenticated ∧
      (getUserPlaylists st trace).reqs = []) ∧
    ((searchTracks q st trace).result = .error .notAuthenticated ∧
      (searchTracks q st trace).reqs = []) ∧
    ((getRecommendations seeds st trace).result = .error .notAuthenticated ∧
      (getRecommendations seeds st trace).reqs = []) ∧
    ((getDevices st trace).result = .error .notAuthenticated ∧
      (getDevices st trace).reqs = []) ∧
    ((playTrack tid st trace).result = .error .notAuthenticated ∧
      (playTrack tid st trace).reqs = []) ∧
    ((skipToNext st trace).result = .error .notAuthenticated ∧
      (skipToNext st trace).reqs = []) ∧
    ((skipToPrevious st trace).result = .error .notAuthenticated ∧
      (skipToPrevious st trace).reqs = []) ∧
    ((seek p st trace).result = .error .notAuthenticated ∧
      (seek p st trace).reqs = []) ∧
    ((getPlaybackState st trace).reqs.head? =
        some { url := playerUrl, method := .get, auth := none } ∧
      (pauseTrack st trace).reqs.head? =
        some { url := playerUrl, method := .get, auth := none } ∧
      (togglePlayback st trace).reqs.head? =
        some { url := playerUrl, method := .get, auth := none }) := by
  have hf : truthy st.accessToken = false := by rw [h]; rfl
  have hm : ∀ e m b, makeRequest st e m b trace =
      { result := .error .notAuthenticated, client := st, trace := trace,
        reqs := [] } :=
    fun e m b => makeRequest_not_authed st e m b trace hf
  have hcp : getCurrentlyPlaying st trace =
      { result := .error .notAuthenticated, client := st, trace := trace,
        reqs := [] } := by
    cases trace <;> (rw [getCurrentlyPlaying.eq_def]; simp [hf])
  have hd : getDevices st trace =
      { result := .error .notAuthenticated, client := st, trace := trace,
        reqs := [] } := by
    rw [getDevices, hm]; rfl
  have hpb : pbReq st = { url := playerUrl, method := .get, auth := none } := by
    rw [pbReq, h]
  have hpn : ¬ p < 0 := not_lt.mpr hp
  have hne1 : seeds ≠ [] := by
    intro hc
    rw [hc] at hs0
    exact hs0 rfl
  have hlt : ¬ 5 < seeds.length := not_lt.mpr hs5
  refine ⟨⟨?_, ?_⟩, ⟨?_, ?_⟩, ⟨?_, ?_⟩, ⟨?_, ?_⟩, ⟨?_, ?_⟩, ⟨?_, ?_⟩,
    ⟨?_, ?_⟩, ⟨?_, ?_⟩, ⟨?_, ?_⟩, ?_, ?_, ?_⟩
  · rw [hcp]
  · rw [hcp]
  · rw [getUserPlaylists]; simp [hf]
  · rw [getUserPlaylists]; simp [hf]
  · rw [searchTracks]; simp [hq, hm, Except.map]
  · rw [searchTracks]; simp [hq, hm]
  · rw [getRecommendations]; simp [hne1, hlt, hm, Except.map]
  · rw [getRecommendations]; simp [hne1, hlt, hm]
  · rw [hd]
  · rw [hd]
  · rw [playTrack]; simp [ht, hd]
  · rw [playTrack]; simp [ht, hd]
  · rw [skipToNext]; simp [hm, Except.map]
  · rw [skipToNext]; simp [hm]
  · rw [skipToPrevious]; simp [hm, Except.map]
  · rw [skipToPrevious]; simp [hm]
  · rw [seek]; simp [hpn, hm, Except.map]
  · rw [seek]; simp [hpn, hm]
  · rw [← hpb]; exact getPlaybackState_reqs_head st trace
  · rw [← hpb]; exact pauseTrack_reqs_head st trace
  · rw [← hpb]; exact togglePlayback_reqs_head st trace

/-- Claim C2 witness. -/
theorem c2_auth_guard_witness :
    (getUserPlaylists { } []).result = .error .notAuthenticated ∧
    (searchTracks "a" { } []).reqs = [] ∧
    (getPlaybackState { } []).reqs.head? =
      some { url := playerUrl, method := .get, auth := none } := by
  have h := c2_auth_guard_amended { } [] "a" "t9" ["s1"] 0 rfl (by decide)
      (by decide) (by decide) (by decide) (by decide)
  exact ⟨h.2.1.1, h.2.2.1.2, h.2.2.2.2.2.2.2.2.2.1⟩

/-- Claim C3 counterexample: getPlaybackState on a 500 response returns the
    parsed error body as a normal successful result instead of failing. -/
theorem c3_getPlaybackState_returns_error_body :
    (getPlaybackState stAuthed
        [{ status := 500,
           body := { error_message := some "server error" } }]).result =
      .ok (some { error_message := some "server error" }) := rfl

/-- Claim C3 (amended): every operation dispatched through makeRequest, as
    well as getCurrentlyPlaying and getUserPlaylists, fails on a
    non-success non-401 response with the error built from the
    service-reported message (and, for makeRequest, the HTTP status), never
    returning a normal result; getPlaybackState is the exception recorded
    in the counterexample. -/
theorem c3_non_success_fails_amended (st : Client) (a e : String)
    (m : HttpMethod) (b : Option String) (resp : HttpResponse)
    (rest : List HttpResponse)
    (ha : st.accessToken = some a) (hne : a ≠ "")
    (hnok : resp.isOk = false) (h401 : resp.status ≠ 401) :
    (makeRequest st e m b (resp :: rest)).result =
      .error (.apiRequest resp.body.error_message resp.status) ∧
    (getCurrentlyPlaying st (resp :: rest)).result =
      .error (.currentlyPlayingFailed resp.body.error_message) ∧
    (getUserPlaylists st (resp :: rest)).result =
      .error (.playlistsFailed resp.body.error_message) := by
  have htr : truthy st.accessToken = true := by rw [ha]; simp [truthy, hne]
  have h204 : resp.status ≠ 204 := by
    intro hc
    rw [HttpResponse.isOk, hc] at hnok
    simp at hnok
  refine ⟨?_, ?_, ?_⟩
  · rw [makeRequest.eq_def]; simp [htr, h401, hnok]
  · rw [getCurrentlyPlaying.eq_def]; simp [htr, h204, h401, hnok]
  · rw [getUserPlaylists]
    simp only [htr, Bool.not_true, Bool.false_eq_true, if_false]
    rw [playlistsLoop.eq_def]
    simp [h401, hnok]

/-- Claim C3 witness. -/
theorem c3_non_success_fails_witness :
    (makeRequest stAuthed "/e" .get none
        [{ status := 500, body := { error_message := some "oops" } }]).result =
      .error (.apiRequest (some "oops") 500) :=
  (c3_non_success_fails_amended stAuthed "tokA" "/e" .get none
      { status := 500, body := { error_message := some "oops" } } [] rfl
      (by decide) (by decide) (by decide)).1


/-- Claim C6: over any well-formed run of paginated 200 responses,
    getUserPlaylists returns the in-order concatenation of all per-page
    mapped items, consumes exactly those responses, and the result length
    is the sum of the page lengths. -/
theorem c6_getUserPlaylists_concat (st : Client) (a : String)
    (pages : List HttpResponse)
    (ha : st.accessToken = some a) (hne : a ≠ "")
    (hch : chainedPages pages = true) (hnil : pages ≠ []) :
    (getUserPlaylists st pages).result =
      .ok ((pages.map fun r => r.body.items.map mapPlaylist).flatten) ∧
    (getUserPlaylists st pages).trace = [] ∧
    ((pages.map fun r => r.body.items.map mapPlaylist).flatten).length =
      (pages.map fun r => r.body.items.length).sum := by
  have htr : truthy st.accessToken = true := by rw [ha]; simp [truthy, hne]
  have hl := playlistsLoop_chained pages st [] playlistsStartUrl hch hnil
  refine ⟨?_, ?_, ?_⟩
  · rw [getUserPlaylists]
    simp only [htr, Bool.not_true, Bool.false_eq_true, if_false]
    rw [hl.1]
    simp
  · rw [getUserPlaylists]
    simp only [htr, Bool.not_true, Bool.false_eq_true, if_false]
    exact hl.2.1
  · rw [List.length_flatten]
    simp [List.map_map, Function.comp_def, List.length_map]

/-- Claim C6 witness: two chained pages of two and one playlists. -/
theorem c6_getUserPlaylists_concat_witness :
    (getUserPlaylists stAuthed c6Pages).result =
      .ok [mapPlaylist (rawPl "p1"), mapPlaylist (rawPl "p2"),
           mapPlaylist (rawPl "p3")] ∧
    (getUserPlaylists stAuthed c6Pages).trace = [] := by
  have h := c6_getUserPlaylists_concat stAuthed "tokA" c6Pages rfl (by decide)
      (by decide) (by decide)
  exact ⟨h.1, h.2.1⟩

/-- Claim C8 counterexample: playTrack with the empty track id fails with
    the track-id-required error before fetching any device list, so the
    device fetch is not unconditionally first. -/
theorem c8_empty_trackId_no_device_fetch :
    (playTrack "" stAuthed [{ status := 200 }]).result =
      .error .trackIdRequired ∧
    (playTrack "" stAuthed [{ status := 200 }]).reqs = [] := ⟨rfl, rfl⟩

/-- Claim C8 (amended): for nonempty track ids playTrack first fetches the
    device list; when no fetched device is active it fails with the
    no-active-device error without issuing the play command; and the play
    command is issued only when the fetched device list holds an active
    device. -/
theorem c8_playTrack_amended (tid : String) (st : Client)
    (trace : List HttpResponse) (ds : List Device)
    (ht : tid ≠ "") (ha : truthy st.accessToken = true)
    (hds : (getDevices st trace).result = .ok ds)
    (hfind : ds.find? (fun d => d.is_active) = none) :
    (playTrack tid st trace).reqs.head? =
      some (apiReq st "/me/player/devices" .get none) ∧
    (playTrack tid st trace).result = .error .noActiveDevice ∧
    (playTrack tid st trace).reqs.any isPlayReq = false ∧
    (∀ st3 trace3 tid3,
      (playTrack tid3 st3 trace3).reqs.any isPlayReq = true →
      ∃ dev ds3, (getDevices st3 trace3).result = .ok ds3 ∧ dev ∈ ds3 ∧
        dev.is_active = true) := by
  have hpt : playTrack tid st trace =
      { result := .error .noActiveDevice, client := (getDevices st trace).client,
        trace := (getDevices st trace).trace, reqs := (getDevices st trace).reqs,
        writes := (getDevices st trace).writes } := by
    rw [playTrack]
    simp [ht, hds, hfind]
  have hreq : (playTrack tid st trace).reqs = (getDevices st trace).reqs := by
    rw [hpt]
  refine ⟨?_, ?_, ?_, ?_⟩
  · rw [hreq, getDevices_reqs]
    exact makeRequest_reqs_head st "/me/player/devices" .get none trace ha
  · rw [hpt]
  · rw [hreq]
    exact getDevices_no_play st trace
  · intro st3 trace3 tid3 hpl
    by_cases h3 : tid3 = ""
    · rw [playTrack] at hpl
      simp [h3] at hpl
    · cases hd3 : (getDevices st3 trace3).result with
      | error e =>
        have hE : (playTrack tid3 st3 trace3).reqs =
            (getDevices st3 trace3).reqs := by
          rw [playTrack]
          simp [h3, hd3]
        rw [hE, getDevices_no_play] at hpl
        exact absurd hpl (by simp)
      | ok ds3 =>
        cases hf3 : ds3.find? (fun d => d.is_active) with
        | none =>
          have hE : (playTrack tid3 st3 trace3).reqs =
              (getDevices st3 trace3).reqs := by
            rw [playTrack]
            simp [h3, hd3, hf3]
          rw [hE, getDevices_no_play] at hpl
          exact absurd hpl (by simp)
        | some dev =>
          refine ⟨dev, ds3, rfl, List.mem_of_find?_eq_some hf3, ?_⟩
          have := List.find?_some hf3
          simpa using this

/-- Claim C8 witness: the device list holds a single inactive device. -/
theorem c8_playTrack_amended_witness :
    (playTrack "t9" stAuthed
        [{ status := 200,
           body := { devices := [{ id := "d1", is_active := false,
                                   name := "Phone", deviceType := "phone" }] } }]).result
      = .error .noActiveDevice := by
  have h := c8_playTrack_amended "t9" stAuthed
      [{ status := 200,
         body := { devices := [{ id := "d1", is_active := false,
                                 name := "Phone", deviceType := "phone" }] } }]
      [{ id := "d1", is_active := false, name := "Phone", deviceType := "phone" }]
      (by decide) (by decide) rfl rfl
  exact h.2.1

/-- Claim C10: pauseTrack first issues the playback-state fetch; whenever
    that state is null or its playing flag is absent or false it returns
    normally without any pause command; and the pause command is issued
    only when the fetched state is present with is_playing true. -/
theorem c10_pauseTrack_skips_when_not_playing (st : Client)
    (trace : List HttpResponse) (s : Option Body)
    (hs : (getPlaybackState st trace).result = .ok s)
    (hnp : isPlayingOf s = false) :
    (pauseTrack st trace).reqs.head? = some (pbReq st) ∧
    (pauseTrack st trace).result = .ok () ∧
    (pauseTrack st trace).reqs.any isPauseReq = false ∧
    (∀ st3 trace3,
      (pauseTrack st3 trace3).reqs.any isPauseReq = true →
      ∃ b, (getPlaybackState st3 trace3).result = .ok (some b) ∧
        b.is_playing = some true) := by
  have hpt : pauseTrack st trace =
      { result := .ok (), client := (getPlaybackState st trace).client,
        trace := (getPlaybackState st trace).trace,
        reqs := (getPlaybackState st trace).reqs,
        writes := (getPlaybackState st trace).writes } := by
    rw [pauseTrack]
    cases s with
    | none => simp [hs]
    | some b =>
      have hb : b.is_playing.getD false = false := by
        simpa [isPlayingOf] using hnp
      simp [hs, hb]
  have hreq : (pauseTrack st trace).reqs = (getPlaybackState st trace).reqs := by
    rw [hpt]
  refine ⟨?_, ?_, ?_, ?_⟩
  · rw [hreq]
    exact getPlaybackState_reqs_head st trace
  · rw [hpt]
  · rw [hreq]
    exact getPlaybackState_no_pause st trace
  · intro st3 trace3 hpl
    cases hres : (getPlaybackState st3 trace3).result with
    | error e =>
      have hE : (pauseTrack st3 trace3).reqs =
          (getPlaybackState st3 trace3).reqs := by
        rw [pauseTrack]
        simp [hres]
      rw [hE, getPlaybackState_no_pause] at hpl
      exact absurd hpl (by simp)
    | ok s3 =>
      cases s3 with
      | none =>
        have hE : (pauseTrack st3 trace3).reqs =
            (getPlaybackState st3 trace3).reqs := by
          rw [pauseTrack]
          simp [hres]
        rw [hE, getPlaybackState_no_pause] at hpl
        exact absurd hpl (by simp)
      | some b =>
        by_cases hp : b.is_playing.getD false
        · refine ⟨b, rfl, ?_⟩
          cases hb : b.is_playing with
          | none => rw [hb] at hp; simp at hp
          | some v =>
            rw [hb] at hp
            simp at hp
            rw [hp]
        · have hE : (pauseTrack st3 trace3).reqs =
              (getPlaybackState st3 trace3).reqs := by
            rw [pauseTrack]
            simp [hres, hp]
          rw [hE, getPlaybackState_no_pause] at hpl
          exact absurd hpl (by simp)

/-- Claim C10 witness: a 204 no-content playback state leads to a normal
    return with no pause command. -/
theorem c10_pauseTrack_witness :
    (pauseTrack stAuthed [{ status := 204 }]).result = .ok () ∧
    (pauseTrack stAuthed [{ status := 204 }]).reqs.any isPauseReq = false := by
  have h := c10_pauseTrack_skips_when_not_playing stAuthed [{ status := 204 }]
      none rfl rfl
  exact ⟨h.2.1, h.2.2.1⟩

end Musana
